import Mathlib

/-!
Verification of the VanLifeToolbox weather resolution and scoring engine.

Shallow embedding of:
  - `src/server/src/services/scoring.service.ts` (ScoringService)
  - `src/server/src/services/weather.service.ts` (WeatherService)
  - `src/server/src/providers/openmeteo.provider.ts` (OpenMeteoProvider)
  - the POST /search handler of `src/server/src/routes/weather.routes.ts`

Modelling conventions:
  - JavaScript numbers are modelled as rationals (ℚ); all arithmetic the
    code performs on them (+, -, *, /, comparisons, Math.max/min) is exact
    rational arithmetic for the values in scope.
  - `Math.round x` is `⌊x + 1/2⌋` (`jsRound`), which is the JS semantics
    for all finite arguments.
  - ISO date strings (`YYYY-MM-DD`) are modelled as integers counting
    days (an epoch-day number); timestamps (`Date.getTime()`) as integers
    counting milliseconds.  String identity fields (uuid, city, state,
    region, sunrise/sunset strings) are modelled as opaque integer tokens.
  - Fallible external calls (provider fetches wrapped in try/catch) are
    modelled as `Option`-valued oracles; a thrown error is `none`.
-/

namespace VanLife

/-- JavaScript `Math.round`: round half up, i.e. `⌊x + 1/2⌋`. -/
def jsRound (q : ℚ) : ℤ := ⌊q + 1/2⌋

/-- Canonical precipitation categories (`PrecipitationType` in
`src/server/src/validators/weather.ts`). -/
inductive PrecipType
  | none
  | rain
  | snow
  | sleet
  | freezing_rain
  | hail
  | drizzle
  | thunderstorms
  | ice_pellets
  | fog
  | mist
  | mixed
deriving DecidableEq, Repr

/-- `DailyWeather` from `src/server/src/types/weather.ts`. -/
structure DailyWeather where
  date : ℤ
  tempHigh : ℚ
  tempLow : ℚ
  humidity : ℚ
  windSpeed : ℚ
  windGust : Option ℚ
  precipChance : ℚ
  precipType : PrecipType
  precipAmount : ℚ
  uvIndex : Option ℚ
  cloudCover : Option ℚ
  sunrise : Option ℤ
  sunset : Option ℤ
deriving DecidableEq, Repr

/-- `WeatherFilters` (zod schema in `src/server/src/validators/weather.ts`):
every field optional; only present fields participate in scoring. -/
structure WeatherFilters where
  tempMin : Option ℚ := Option.none
  tempMax : Option ℚ := Option.none
  humidityMax : Option ℚ := Option.none
  windSpeedMax : Option ℚ := Option.none
  precipChanceMax : Option ℚ := Option.none
  precipTypesAllowed : Option (List PrecipType) := Option.none
  precipTypesExcluded : Option (List PrecipType) := Option.none
  aqiMax : Option ℚ := Option.none
deriving DecidableEq, Repr

/-- `ScoreBreakdown` from `src/server/src/types/weather.ts`; the four
category aggregates are integers because the source applies `Math.round`. -/
structure ScoreBreakdown where
  temperature : ℤ
  humidity : ℤ
  wind : ℤ
  precipitation : ℤ
  aqi : Option ℤ
deriving DecidableEq, Repr

/-- `scoring.service.ts` lines 189-212, `scoreTemperature`.
The source checks two early-return branches in order:
first `tempMin !== undefined && high < tempMin`,
then `tempMax !== undefined && low > tempMax`; otherwise returns 100. -/
def scoreTemperature (high low : ℚ) (f : WeatherFilters) : ℚ :=
  match f.tempMin, f.tempMax with
  | Option.some tmin, Option.some tmax =>
      if high < tmin then max 0 (100 - (tmin - high) * 10)
      else if low > tmax then max 0 (100 - (low - tmax) * 10)
      else 100
  | Option.some tmin, Option.none =>
      if high < tmin then max 0 (100 - (tmin - high) * 10) else 100
  | Option.none, Option.some tmax =>
      if low > tmax then max 0 (100 - (low - tmax) * 10) else 100
  | Option.none, Option.none => 100

/-- `scoring.service.ts` lines 218-226, `scoreHumidity`. -/
def scoreHumidity (humidity maxHumidity : ℚ) : ℚ :=
  if humidity ≤ maxHumidity then 100
  else max 0 (100 - (humidity - maxHumidity) * 5)

/-- `scoring.service.ts` lines 232-240, `scoreWind`. -/
def scoreWind (windSpeed maxWind : ℚ) : ℚ :=
  if windSpeed ≤ maxWind then 100
  else max 0 (100 - (windSpeed - maxWind) * 10)

/-- `scoring.service.ts` lines 246-280, `scorePrecipitation`.
The mutable `score` variable is threaded through three sequential checks. -/
def scorePrecipitation (chance : ℚ) (ty : PrecipType) (f : WeatherFilters) : ℚ :=
  let score1 : ℚ :=
    match f.precipTypesExcluded with
    | Option.some excluded =>
        if ty ∈ excluded ∧ 0 < chance then max 0 (100 - chance) else 100
    | Option.none => 100
  let score2 : ℚ :=
    match f.precipTypesAllowed with
    | Option.some allowed =>
        if allowed ≠ [] ∧ ty ∉ allowed ∧ ty ≠ PrecipType.none ∧ 0 < chance then
          min score1 (max 0 (100 - chance))
        else score1
    | Option.none => score1
  match f.precipChanceMax with
  | Option.some m =>
      if chance > m then min score2 (max 0 (100 - (chance - m) * 2)) else score2
  | Option.none => score2

/-- The temperature category is active when either bound is set
(`scoring.service.ts` line 79 and 136). -/
def tempFilterActive (f : WeatherFilters) : Bool :=
  f.tempMin.isSome || f.tempMax.isSome

/-- The precipitation category is active when any of the three precipitation
filter fields is set (`scoring.service.ts` lines 103-107 and 154-158). -/
def precipFilterActive (f : WeatherFilters) : Bool :=
  f.precipChanceMax.isSome || f.precipTypesAllowed.isSome ||
    f.precipTypesExcluded.isSome

/-- `scoring.service.ts` lines 70-116, `scoreSingleDay`: accumulate
(total, categoryCount, passesAllFilters) over the four categories, then
average; with no active category the day scores 100. -/
def scoreSingleDay (day : DailyWeather) (f : WeatherFilters) : ℚ × Bool :=
  let acc0 : ℚ × ℕ × Bool := (0, 0, true)
  let acc1 : ℚ × ℕ × Bool :=
    if tempFilterActive f then
      let s := scoreTemperature day.tempHigh day.tempLow f
      (acc0.1 + s, acc0.2.1 + 1, acc0.2.2 && decide (¬ s = 0))
    else acc0
  let acc2 : ℚ × ℕ × Bool :=
    match f.humidityMax with
    | Option.some m =>
        let s := scoreHumidity day.humidity m
        (acc1.1 + s, acc1.2.1 + 1, acc1.2.2 && decide (¬ s = 0))
    | Option.none => acc1
  let acc3 : ℚ × ℕ × Bool :=
    match f.windSpeedMax with
    | Option.some m =>
        let s := scoreWind day.windSpeed m
        (acc2.1 + s, acc2.2.1 + 1, acc2.2.2 && decide (¬ s = 0))
    | Option.none => acc2
  let acc4 : ℚ × ℕ × Bool :=
    if precipFilterActive f then
      let s := scorePrecipitation day.precipChance day.precipType f
      (acc3.1 + s, acc3.2.1 + 1, acc3.2.2 && decide (¬ s = 0))
    else acc3
  (if acc4.2.1 > 0 then acc4.1 / (acc4.2.1 : ℚ) else 100, acc4.2.2)

/-- Aggregate one category over its active per-day scores
(`scoring.service.ts` lines 164-170: `count > 0 ? Math.round(total/count) : 100`). -/
def categoryAggregate (scores : List ℚ) : ℤ :=
  if scores.length > 0 then jsRound (scores.sum / (scores.length : ℚ)) else 100

/-- `scoring.service.ts` lines 121-171, `calculateCategoryScores`.
For each category the source accumulates a (total, count) pair over the
days, guarded by the same per-category activity test on every day; this is
the same as summing the mapped scores when the category is active and
keeping (0,0) otherwise. -/
def calculateCategoryScores (daily : List DailyWeather) (f : WeatherFilters) :
    ScoreBreakdown :=
  let tempScores :=
    if tempFilterActive f then
      daily.map (fun d => scoreTemperature d.tempHigh d.tempLow f)
    else []
  let humScores :=
    match f.humidityMax with
    | Option.some m => daily.map (fun d => scoreHumidity d.humidity m)
    | Option.none => []
  let windScores :=
    match f.windSpeedMax with
    | Option.some m => daily.map (fun d => scoreWind d.windSpeed m)
    | Option.none => []
  let precipScores :=
    if precipFilterActive f then
      daily.map (fun d => scorePrecipitation d.precipChance d.precipType f)
    else []
  { temperature := categoryAggregate tempScores
    humidity := categoryAggregate humScores
    wind := categoryAggregate windScores
    precipitation := categoryAggregate precipScores
    aqi := Option.none }

/-- `CATEGORY_WEIGHTS` (`scoring.service.ts` lines 9-14): equal 0.25 weights. -/
structure CategoryWeights where
  temperature : ℚ
  humidity : ℚ
  wind : ℚ
  precipitation : ℚ

def CATEGORY_WEIGHTS : CategoryWeights :=
  { temperature := 1/4, humidity := 1/4, wind := 1/4, precipitation := 1/4 }

/-- `scoring.service.ts` lines 176-183, `calculateOverallScore`. -/
def calculateOverallScore (b : ScoreBreakdown) : ℚ :=
  (b.temperature : ℚ) * CATEGORY_WEIGHTS.temperature +
    (b.humidity : ℚ) * CATEGORY_WEIGHTS.humidity +
    (b.wind : ℚ) * CATEGORY_WEIGHTS.wind +
    (b.precipitation : ℚ) * CATEGORY_WEIGHTS.precipitation

/-- Provenance tag (`'forecast' | 'historical' | 'mixed'`). -/
inductive DataSource
  | forecast
  | historical
  | mixed
deriving DecidableEq, Repr

/-- Grid point identity passed through by `scoreLocation`
(string fields modelled as opaque integer tokens). -/
structure GridPointInfo where
  id : ℤ
  latitude : ℚ
  longitude : ℚ
  nearestCity : Option ℤ
  state : ℤ
  region : ℤ
deriving DecidableEq, Repr

/-- `DailyScore` from `src/server/src/types/weather.ts`. -/
structure DailyScore where
  date : ℤ
  score : ℚ
  passesFilters : Bool
deriving DecidableEq, Repr

/-- `ScoredLocation` from `src/server/src/types/weather.ts`. -/
structure ScoredLocation where
  gridPointId : ℤ
  latitude : ℚ
  longitude : ℚ
  nearestCity : Option ℤ
  state : ℤ
  region : ℤ
  score : ℤ
  scoreBreakdown : ScoreBreakdown
  dailyScores : List DailyScore
  dataSource : DataSource
deriving DecidableEq, Repr

/-- `scoring.service.ts` lines 24-65, `scoreLocation`. -/
def scoreLocation (g : GridPointInfo) (daily : List DailyWeather)
    (f : WeatherFilters) (ds : DataSource) : ScoredLocation :=
  let dailyScores := daily.map (fun day =>
    let r := scoreSingleDay day f
    ({ date := day.date, score := r.1, passesFilters := r.2 } : DailyScore))
  let categoryScores := calculateCategoryScores daily f
  let overallScore := calculateOverallScore categoryScores
  { gridPointId := g.id
    latitude := g.latitude
    longitude := g.longitude
    nearestCity := g.nearestCity
    state := g.state
    region := g.region
    score := jsRound overallScore
    scoreBreakdown := categoryScores
    dailyScores := dailyScores
    dataSource := ds }

/-! ## OpenMeteoProvider (`src/server/src/providers/openmeteo.provider.ts`) -/

/-- `celsiusToFahrenheit` (lines 70-72): `Math.round(c * 9 / 5 + 32)`. -/
def celsiusToFahrenheit (c : ℚ) : ℤ := jsRound (c * 9 / 5 + 32)

/-- `kmhToMph` (lines 77-79): `Math.round(kmh * 0.621371)`. -/
def kmhToMph (kmh : ℚ) : ℤ := jsRound (kmh * (621371 / 1000000))

/-- `mmToInches` (lines 84-86): `Math.round(mm * 0.0393701 * 100) / 100`. -/
def mmToInches (mm : ℚ) : ℚ := (jsRound (mm * (393701 / 10000000) * 100) : ℚ) / 100

/-- `mapWeatherCodeToPrecipType` (lines 33-65): fixed WMO code table. -/
def mapWeatherCodeToPrecipType (code : ℤ) : PrecipType :=
  if code ≤ 3 then PrecipType.none
  else if code = 45 ∨ code = 48 then PrecipType.fog
  else if 51 ≤ code ∧ code ≤ 55 then PrecipType.drizzle
  else if code = 56 ∨ code = 57 then PrecipType.freezing_rain
  else if 61 ≤ code ∧ code ≤ 65 then PrecipType.rain
  else if code = 66 ∨ code = 67 then PrecipType.freezing_rain
  else if 71 ≤ code ∧ code ≤ 77 then PrecipType.snow
  else if 80 ≤ code ∧ code ≤ 82 then PrecipType.rain
  else if code = 85 ∨ code = 86 then PrecipType.snow
  else if 95 ≤ code then PrecipType.thunderstorms
  else PrecipType.none

/-- One index of the parallel arrays in `OpenMeteoDaily`: the values the
`parseResponse` loop body reads at position `i`.  Fields that may be
absent in the provider JSON (`precipitation_probability_max` is missing on
the historical endpoint, `uv_index_max`, `cloudcover_mean`, `sunrise`,
`sunset` are accessed with `?.`/`??`) are `Option`s. -/
structure RawDay where
  time : ℤ
  temperature_2m_max : ℚ
  temperature_2m_min : ℚ
  relative_humidity_2m_max : ℚ
  wind_speed_10m_max : ℚ
  wind_gusts_10m_max : ℚ
  precipitation_probability_max : Option ℚ
  precipitation_sum : ℚ
  weathercode : ℤ
  uv_index_max : Option ℚ
  cloudcover_mean : Option ℚ
  sunrise : Option ℤ
  sunset : Option ℤ
deriving DecidableEq, Repr

/-- Loop body of `parseResponse` (lines 398-419) for one index.
Note `windGust`: the source writes
`daily.wind_gusts_10m_max[i] ? kmhToMph(...) : null`,
a JS truthiness test, so a gust value of exactly 0 yields `null`. -/
def parseDay (d : RawDay) (isHistorical : Bool) : DailyWeather :=
  { date := d.time
    tempHigh := (celsiusToFahrenheit d.temperature_2m_max : ℚ)
    tempLow := (celsiusToFahrenheit d.temperature_2m_min : ℚ)
    humidity := (jsRound d.relative_humidity_2m_max : ℚ)
    windGust :=
      if d.wind_gusts_10m_max = 0 then Option.none
      else Option.some (kmhToMph d.wind_gusts_10m_max : ℚ)
    windSpeed := (kmhToMph d.wind_speed_10m_max : ℚ)
    precipChance :=
      if isHistorical then (if 0 < d.precipitation_sum then 100 else 0)
      else (jsRound (d.precipitation_probability_max.getD 0) : ℚ)
    precipType := mapWeatherCodeToPrecipType d.weathercode
    precipAmount := mmToInches d.precipitation_sum
    uvIndex := d.uv_index_max
    cloudCover := d.cloudcover_mean
    sunrise := d.sunrise
    sunset := d.sunset }

/-- `parseResponse` (lines 394-422): map the loop body over all indices. -/
def parseResponse (days : List RawDay) (isHistorical : Bool) : List DailyWeather :=
  days.map (fun d => parseDay d isHistorical)

/-! ### Averaging fallback (`averageHistoricalData`, lines 228-308) -/

/-- Key order of the JS `Map` built in the precip-type mode computation:
distinct `precipType` values in the order they are first seen. -/
def firstSeenTypes (pts : List DailyWeather) : List PrecipType :=
  pts.foldl (fun acc d => if d.precipType ∈ acc then acc else acc ++ [d.precipType]) []

/-- Count of sampled days with a given precipitation type (the `Map` values). -/
def countType (pts : List DailyWeather) (t : PrecipType) : ℕ :=
  (pts.filter (fun d => d.precipType = t)).length

/-- `for (const [type, count] of precipTypeCounts) if (count > maxCount) ...`
starting from `('none', 0)`: the first strictly-most-frequent type wins. -/
def modePrecipType (pts : List DailyWeather) : PrecipType :=
  (((firstSeenTypes pts).map (fun t => (t, countType pts t))).foldl
    (fun acc tc => if tc.2 > acc.2 then tc else acc)
    (PrecipType.none, 0)).1

/-- Loop body of `averageHistoricalData` for one `dayIndex`:
collect `yearsData[y][dayIndex]` over all years, skip the day when no year
has data, else build the averaged record.  `none` models `continue`. -/
def averageDay (yearsData : List (List DailyWeather)) (startDate : ℤ)
    (dayIndex : ℕ) : Option DailyWeather :=
  let dayDataPoints := yearsData.filterMap (fun yearData => yearData.get? dayIndex)
  if dayDataPoints = [] then Option.none
  else
    let n : ℚ := (dayDataPoints.length : ℚ)
    let yearsWithPrecip := (dayDataPoints.filter (fun d => 0 < d.precipAmount)).length
    Option.some
      { date := startDate + (dayIndex : ℤ)
        tempHigh := (jsRound ((dayDataPoints.map (fun d => d.tempHigh)).sum / n) : ℚ)
        tempLow := (jsRound ((dayDataPoints.map (fun d => d.tempLow)).sum / n) : ℚ)
        humidity := (jsRound ((dayDataPoints.map (fun d => d.humidity)).sum / n) : ℚ)
        windSpeed := (jsRound ((dayDataPoints.map (fun d => d.windSpeed)).sum / n) : ℚ)
        windGust := Option.none
        precipChance := (jsRound ((yearsWithPrecip : ℚ) / n * 100) : ℚ)
        precipType := modePrecipType dayDataPoints
        precipAmount :=
          (jsRound ((dayDataPoints.map (fun d => d.precipAmount)).sum / n * 100) : ℚ) / 100
        uvIndex := Option.none
        cloudCover := Option.none
        sunrise := (dayDataPoints.head?.map (fun d => d.sunrise)).getD Option.none
        sunset := (dayDataPoints.head?.map (fun d => d.sunset)).getD Option.none }

/-- `averageHistoricalData` (lines 228-308): one averaged record per day of
`[startDate, endDate]`, skipping days with no data in any sampled year. -/
def averageHistoricalData (yearsData : List (List DailyWeather))
    (startDate endDate : ℤ) : List DailyWeather :=
  let numDays := (endDate - startDate).toNat + 1
  (List.range numDays).filterMap (fun dayIndex => averageDay yearsData startDate dayIndex)

/-- Error taxonomy of the provider: `InsufficientHistory` is the
`throw new Error('Failed to fetch any historical data for averaging')`
at line 218. -/
inductive FetchError
  | InsufficientHistory
deriving DecidableEq, Repr

/-- `historicalYearsToAverage` (line 106). -/
def historicalYearsToAverage : ℕ := 5

/-- `fetchHistoricalAverages` (lines 192-223).  `fetchYear i` models the
`fetchHistorical` call for year offset `i` (the same month/day range shifted
`i` years back); `none` models a caught fetch error, which the loop skips. -/
def fetchHistoricalAverages (fetchYear : ℕ → Option (List DailyWeather))
    (startDate endDate : ℤ) : Except FetchError (List DailyWeather) :=
  let yearsData : List (List DailyWeather) :=
    (List.range historicalYearsToAverage).foldl
      (fun acc i =>
        match fetchYear (i + 1) with
        | Option.some data => acc ++ [data]
        | Option.none => acc)
      []
  if yearsData.length = 0 then Except.error FetchError.InsufficientHistory
  else Except.ok (averageHistoricalData yearsData startDate endDate)

/-! ## WeatherService (`src/server/src/services/weather.service.ts`) -/

/-- `WeatherDataType` (prisma enum): cache data class. -/
inductive WeatherDataType
  | forecast
  | historical
deriving DecidableEq, Repr

/-- One row of the `weatherCache` table (key: gridPointId, date, dataType;
the grid point is fixed throughout a resolution, so it is left implicit).
The table is modelled as a `List CacheRow` whose order is the order
`findMany` returns rows in. -/
structure CacheRow where
  date : ℤ
  dataType : WeatherDataType
  data : DailyWeather
  fetchedAt : ℤ
deriving DecidableEq, Repr

/-- Cache expiration constants (lines 10-11). -/
def FORECAST_CACHE_HOURS : ℤ := 6

def HISTORICAL_CACHE_DAYS : ℤ := 7

/-- `isCacheExpired` (lines 143-159).  The `_dataDate`/`_today` parameters
are unused in the source and dropped here; `now` is `new Date()` in ms. -/
def isCacheExpired (now fetchedAt : ℤ) (dataType : WeatherDataType) : Bool :=
  let ageMs := now - fetchedAt
  match dataType with
  | WeatherDataType.forecast => ageMs > FORECAST_CACHE_HOURS * 60 * 60 * 1000
  | WeatherDataType.historical => ageMs > HISTORICAL_CACHE_DAYS * 24 * 60 * 60 * 1000

/-- The value stored per date in the in-memory `cacheMap` (lines 59-67). -/
structure CacheEntryInfo where
  data : DailyWeather
  dataType : WeatherDataType
  fetchedAt : ℤ
deriving DecidableEq, Repr

/-- Build the `cacheMap` from the rows `findMany` returned, in order:
`Map.set` semantics, a later row for the same date overwrites an earlier
one (lines 59-67). -/
def buildCacheMap (rows : List CacheRow) : ℤ → Option CacheEntryInfo :=
  rows.foldl
    (fun m row => fun d =>
      if d = row.date then Option.some ⟨row.data, row.dataType, row.fetchedAt⟩ else m d)
    (fun _ => Option.none)

/-- Enumerate the calendar dates of `[s, e]` (lines 40-45):
empty when `e < s`, else `s, s+1, ..., e`. -/
def datesInRange (s e : ℤ) : List ℤ :=
  if e < s then []
  else (List.range ((e - s).toNat + 1)).map (fun i : ℕ => s + (i : ℤ))

/-- Data class the service assigns a fetched day
(`new Date(day.date) < today ? historical : forecast`, lines 97 and 171). -/
def classOf (today date : ℤ) : WeatherDataType :=
  if date < today then WeatherDataType.historical else WeatherDataType.forecast

/-- One `prisma.weatherCache.upsert` on key (date, dataType):
update the matching row in place, or append a new row. -/
def upsertRow (rows : List CacheRow) (date : ℤ) (dt : WeatherDataType)
    (day : DailyWeather) (now : ℤ) : List CacheRow :=
  if rows.any (fun r => r.date = date ∧ r.dataType = dt) then
    rows.map (fun r =>
      if r.date = date ∧ r.dataType = dt then
        { r with data := day, fetchedAt := now }
      else r)
  else rows ++ [⟨date, dt, day, now⟩]

/-- `cacheWeatherData` (lines 164-195): one upsert per fetched day, data
class chosen by `classOf`, applied as one batch. -/
def cacheWeatherData (rows : List CacheRow) (fetched : List DailyWeather)
    (today now : ℤ) : List CacheRow :=
  fetched.foldl
    (fun rs day => upsertRow rs day.date (classOf today day.date) day now)
    rows

/-- Final records: for each date of the range in order, the cache-map value
if present (lines 107-120). -/
def buildDaily (dates : List ℤ) (m : ℤ → Option CacheEntryInfo) : List DailyWeather :=
  dates.filterMap (fun d => (m d).map (fun c => c.data))

/-- `dataSource` computation (lines 108-128): `mixed` when both classes are
present among the resolved dates, `historical` when only historical,
else the default `forecast`. -/
def computeDataSource (dates : List ℤ) (m : ℤ → Option CacheEntryInfo) : DataSource :=
  let entries := dates.filterMap m
  let hasForecast := entries.any (fun c => c.dataType = WeatherDataType.forecast)
  let hasHistorical := entries.any (fun c => c.dataType = WeatherDataType.historical)
  if hasForecast ∧ hasHistorical then DataSource.mixed
  else if hasHistorical then DataSource.historical
  else DataSource.forecast

/-- Result of one resolution, extended with the observable effects the
claims are about: the provider calls made (as (start, end) ranges),
the database rows after the write-back, and the final in-memory date map. -/
structure ResolveResult where
  daily : List DailyWeather
  dataSource : DataSource
  calls : List (ℤ × ℤ)
  cacheAfter : List CacheRow
  finalMap : ℤ → Option CacheEntryInfo

/-- The needs-fetch test for one date (lines 69-78): not cached, or cached
but expired. -/
def needsFetch (cacheMap : ℤ → Option CacheEntryInfo) (now d : ℤ) : Bool :=
  match cacheMap d with
  | Option.none => true
  | Option.some c => isCacheExpired now c.fetchedAt c.dataType

/-- The `cacheMap` a resolution starts from: the rows of the range, in
`findMany` order, collapsed by date (lines 48-67). -/
def rangeCacheMap (db : List CacheRow) (startDate endDate : ℤ) :
    ℤ → Option CacheEntryInfo :=
  buildCacheMap (db.filter (fun r => startDate ≤ r.date ∧ r.date ≤ endDate))

/-- The dates a resolution will fetch (lines 69-78). -/
def datesToFetchOf (db : List CacheRow) (startDate endDate now : ℤ) : List ℤ :=
  (datesInRange startDate endDate).filter
    (fun d => needsFetch (rangeCacheMap db startDate endDate) now d)

/-- `getGridPointWeather` (lines 27-138).  `db` is the cache table,
`provider s e` the value of `provider.getWeather(lat, lon, s, e)`
(dates as epoch days), `today` the midnight-truncated current day and
`now` the current timestamp.  When any date needs fetching, one provider
call is made spanning the first to the last such date; every fetched
record is written back and overwrites the in-memory map at its date. -/
def getGridPointWeather (db : List CacheRow)
    (provider : ℤ → ℤ → List DailyWeather)
    (startDate endDate today now : ℤ) : ResolveResult :=
  let dates := datesInRange startDate endDate
  let cacheMap := rangeCacheMap db startDate endDate
  match datesToFetchOf db startDate endDate now with
  | [] =>
      { daily := buildDaily dates cacheMap
        dataSource := computeDataSource dates cacheMap
        calls := []
        cacheAfter := db
        finalMap := cacheMap }
  | d0 :: rest =>
      let fetchEnd := (d0 :: rest).getLast (List.cons_ne_nil d0 rest)
      let fetched := provider d0 fetchEnd
      let newDb := cacheWeatherData db fetched today now
      let cacheMap2 := fetched.foldl
        (fun m day => fun d =>
          if d = day.date then Option.some ⟨day, classOf today day.date, now⟩ else m d)
        cacheMap
      { daily := buildDaily dates cacheMap2
        dataSource := computeDataSource dates cacheMap2
        calls := [(d0, fetchEnd)]
        cacheAfter := newDb
        finalMap := cacheMap2 }

/-! ## POST /search handler (`src/server/src/routes/weather.routes.ts`,
lines 242-376): the batching, filtering, early-stop, sort and truncation
logic.  The per-location evaluation (resolution + scoring, or `null` when
it threw) is abstracted as the `outcomes` list, one entry per grid point
in order. -/

/-- Split a list into consecutive batches of 10 (`batchSize`, line 307). -/
def toBatches (l : List (Option ScoredLocation)) : List (List (Option ScoredLocation)) :=
  if l = [] then [] else l.take 10 :: toBatches (l.drop 10)
termination_by l.length
decreasing_by
  simp only [List.length_drop]
  have h0 : 0 < l.length := List.length_pos.mpr (by assumption)
  omega

/-- Results of one batch kept by the handler (lines 336-340): the non-null
outcomes whose score reaches `minScore`. -/
def keptOf (b : List (Option ScoredLocation)) (minScore : ℤ) : List ScoredLocation :=
  (b.filterMap id).filter (fun r => minScore ≤ r.score)

/-- Number of accumulated results scoring at least 70 (line 343). -/
def highCount (l : List ScoredLocation) : ℕ :=
  (l.filter (fun r => (70 : ℤ) ≤ r.score)).length

/-- The batch loop (lines 308-347): accumulate kept results per batch and
stop as soon as the running count of results scoring ≥ 70 reaches
`limit * 2`.  Also returns the number of locations processed. -/
def searchBatches (batches : List (List (Option ScoredLocation)))
    (limit : ℕ) (minScore : ℤ) (acc : List ScoredLocation) :
    List ScoredLocation × ℕ :=
  match batches with
  | [] => (acc, 0)
  | b :: restBatches =>
      let acc2 := acc ++ keptOf b minScore
      if limit * 2 ≤ highCount acc2 then (acc2, b.length)
      else
        let r := searchBatches restBatches limit minScore acc2
        (r.1, b.length + r.2)

/-- Descending-score order used by `sort((a, b) => b.score - a.score)`. -/
def scoreGE (a b : ScoredLocation) : Prop := b.score ≤ a.score

instance : DecidableRel scoreGE := fun a b => inferInstanceAs (Decidable (b.score ≤ a.score))

instance : IsTotal ScoredLocation scoreGE := ⟨fun a b => le_total b.score a.score⟩

instance : IsTrans ScoredLocation scoreGE :=
  ⟨fun _ _ _ h1 h2 => le_trans h2 h1⟩

/-- The whole handler tail (lines 304-352): run the batch loop from an
empty accumulator, then sort by score descending (JS sort is stable;
insertion sort is its stable witness) and truncate to `limit`.  Returns
the response list and the number of locations processed. -/
def searchHandler (outcomes : List (Option ScoredLocation)) (limit : ℕ)
    (minScore : ℤ) : List ScoredLocation × ℕ :=
  let r := searchBatches (toBatches outcomes) limit minScore []
  ((List.insertionSort scoreGE r.1).take limit, r.2)

/-- A raw provider day whose maximum wind gust reads exactly 0 km/h. -/
def rawDayGustZero : RawDay :=
  { time := 0, temperature_2m_max := 20, temperature_2m_min := 10,
    relative_humidity_2m_max := 50, wind_speed_10m_max := 10,
    wind_gusts_10m_max := 0, precipitation_probability_max := Option.some 30,
    precipitation_sum := 0, weathercode := 1, uv_index_max := Option.none,
    cloudcover_mean := Option.none, sunrise := Option.none,
    sunset := Option.none }

/-- The same raw day with a 10 km/h gust. -/
def rawDayGustTen : RawDay :=
  { rawDayGustZero with wind_gusts_10m_max := 10 }

/-- A sample historical day with precipitation (chance 100, amount 0.5 in). -/
def histDayA : DailyWeather :=
  { date := 0, tempHigh := 60, tempLow := 40, humidity := 50, windSpeed := 5,
    windGust := Option.none, precipChance := 100, precipType := PrecipType.rain,
    precipAmount := 1/2, uvIndex := Option.none, cloudCover := Option.none,
    sunrise := Option.none, sunset := Option.none }

/-- A sample historical day that also had precipitation (amount 0.3 in) but
whose recorded precipitation chance is 0. -/
def histDayB : DailyWeather :=
  { date := 0, tempHigh := 70, tempLow := 50, humidity := 40, windSpeed := 8,
    windGust := Option.none, precipChance := 0, precipType := PrecipType.rain,
    precipAmount := 3/10, uvIndex := Option.none, cloudCover := Option.none,
    sunrise := Option.none, sunset := Option.none }

/-- An integer-valued sample day (dates and values chosen so that all
record fields are kernel-computable rationals). -/
def resDay (d : ℤ) (t : ℚ) : DailyWeather :=
  { date := d, tempHigh := t, tempLow := 40, humidity := 50, windSpeed := 5,
    windGust := Option.none, precipChance := 0, precipType := PrecipType.none,
    precipAmount := 0, uvIndex := Option.none, cloudCover := Option.none,
    sunrise := Option.none, sunset := Option.none }

/-- A location whose overall score rounds to 90 (concrete witness payload). -/
def highLoc : ScoredLocation :=
  { gridPointId := 0, latitude := 0, longitude := 0, nearestCity := Option.none,
    state := 0, region := 0, score := 90,
    scoreBreakdown := ⟨90, 90, 90, 90, Option.none⟩, dailyScores := [],
    dataSource := DataSource.forecast }

/-- The grid point used in the no-data instance. -/
def gp0 : GridPointInfo :=
  { id := 0, latitude := 0, longitude := 0, nearestCity := Option.none,
    state := 0, region := 0 }

/-- A filter set with an active temperature bound. -/
def filters90 : WeatherFilters := { tempMax := Option.some 90 }

/-- The records the (single) provider call of a resolution returns;
`[]` when no date needed fetching and no call was made. -/
def fetchedOf (db : List CacheRow) (provider : ℤ → ℤ → List DailyWeather)
    (s e now : ℤ) : List DailyWeather :=
  match datesToFetchOf db s e now with
  | [] => []
  | d0 :: rest => provider d0 ((d0 :: rest).getLast (List.cons_ne_nil d0 rest))

/-- Well-formedness of the cache table: at most one row per date, and every
row's data class is the class the service itself writes for that date. -/
def WFCache (today : ℤ) (rows : List CacheRow) : Prop :=
  rows.Pairwise (fun a b => a.date ≠ b.date) ∧
    ∀ r ∈ rows, r.dataType = classOf today r.date

/-! ## Theorems -/

/-- Claim C1, counterexample:  The claim says a day's score is 100 exactly when
the high is at most `tempMax` (if set) and the low is at least `tempMin`
(if set), and in particular that a day with high 95 under `tempMax = 90`
scores 50.  The code compares the *low* against `tempMax`: a day with
high 95 and low 60 under `tempMax = 90` (no `tempMin`) scores 100, not 50. -/
theorem C1_counterexample :
    scoreTemperature 95 60 { tempMax := Option.some 90 } = 100 ∧
      (100 : ℚ) ≠ 50 := by
  constructor
  · simp [scoreTemperature]
    norm_num
  · norm_num

/-- Claim C1 as amended:  `scoreTemperature` returns 100 unless `tempMin` is set
and the day's *high* is below it (losing 10 points per degree the high falls
short, floored at 0), or — failing that first check — `tempMax` is set and
the day's *low* is above it (losing 10 points per degree the low exceeds it,
floored at 0).  A day with low 95 under `tempMax = 90` scores 50. -/
theorem C1_amended_temperature (high low : ℚ) (f : WeatherFilters) :
    ((∀ tmin ∈ f.tempMin, tmin ≤ high) → (∀ tmax ∈ f.tempMax, low ≤ tmax) →
      scoreTemperature high low f = 100) ∧
    (∀ tmin ∈ f.tempMin, high < tmin →
      scoreTemperature high low f = max 0 (100 - (tmin - high) * 10)) ∧
    (∀ tmax ∈ f.tempMax, (∀ tmin ∈ f.tempMin, tmin ≤ high) → tmax < low →
      scoreTemperature high low f = max 0 (100 - (low - tmax) * 10)) ∧
    scoreTemperature 95 95 { tempMax := Option.some 90 } = 50 := by
  refine ⟨?_, ?_, ?_, ?_⟩
  · intro hmin hmax
    rcases hfmin : f.tempMin with _ | tmin <;> rcases hfmax : f.tempMax with _ | tmax <;>
      simp only [scoreTemperature, hfmin, hfmax]
    · have := hmax tmax (by rw [hfmax]; rfl)
      rw [if_neg (by linarith)]
    · have := hmin tmin (by rw [hfmin]; rfl)
      rw [if_neg (by linarith)]
    · have h1 := hmin tmin (by rw [hfmin]; rfl)
      have h2 := hmax tmax (by rw [hfmax]; rfl)
      rw [if_neg (by linarith), if_neg (by linarith)]
  · intro tmin hmember hlt
    rw [Option.mem_def] at hmember
    rcases hfmax : f.tempMax with _ | tmax <;>
      simp only [scoreTemperature, hmember, hfmax] <;>
      rw [if_pos hlt]
  · intro tmax hmember hmin hlt
    rw [Option.mem_def] at hmember
    rcases hfmin : f.tempMin with _ | tmin <;>
      simp only [scoreTemperature, hmember, hfmin]
    · rw [if_pos hlt]
    · have := hmin tmin (by rw [hfmin]; rfl)
      rw [if_neg (by linarith), if_pos hlt]
  · simp [scoreTemperature]
    norm_num

/-- Claim C1 witness:  The amended characterization evaluated at a concrete
in-range day: high 70, low 60 under `tempMin = 65`, `tempMax = 80` scores 100. -/
theorem C1_witness :
    scoreTemperature 70 60
      { tempMin := Option.some 65, tempMax := Option.some 80 } = 100 :=
  (C1_amended_temperature 70 60
      { tempMin := Option.some 65, tempMax := Option.some 80 }).1
    (by intro tmin h; rw [Option.mem_def] at h; injection h with h; rw [← h]; norm_num)
    (by intro tmax h; rw [Option.mem_def] at h; injection h with h; rw [← h]; norm_num)

/-- Claim C9:  `scoreHumidity` is 100 when the day's humidity is at most
`humidityMax`, and otherwise 100 minus 5 points per percentage point over,
floored at 0; humidity 85 with `humidityMax = 70` scores 25. -/
theorem C9_humidity_score (humidity m : ℚ) :
    (humidity ≤ m → scoreHumidity humidity m = 100) ∧
    (m < humidity → scoreHumidity humidity m = max 0 (100 - (humidity - m) * 5)) ∧
    scoreHumidity 85 70 = 25 := by
  refine ⟨fun h => ?_, fun h => ?_, ?_⟩
  · rw [scoreHumidity, if_pos h]
  · rw [scoreHumidity, if_neg (by linarith)]
  · rw [scoreHumidity, if_neg (by norm_num)]
    norm_num

/-- Claim C9 witness:  The humidity score evaluated at concrete inputs on both
sides of the bound. -/
theorem C9_witness : scoreHumidity 50 70 = 100 :=
  (C9_humidity_score 50 70).1 (by norm_num)

/-- Claim C8:  The overall score is the rounding of the sum of the four
category aggregates each weighted 0.25, and a category with no active
filter has aggregate 100 (hence contributes 100 · 0.25 = 25 to the sum
regardless of the other filters). -/
theorem C8_overall_score (g : GridPointInfo) (daily : List DailyWeather)
    (f : WeatherFilters) (ds : DataSource) :
    ((scoreLocation g daily f ds).score =
      jsRound (((calculateCategoryScores daily f).temperature : ℚ) * (1/4) +
        ((calculateCategoryScores daily f).humidity : ℚ) * (1/4) +
        ((calculateCategoryScores daily f).wind : ℚ) * (1/4) +
        ((calculateCategoryScores daily f).precipitation : ℚ) * (1/4))) ∧
    (tempFilterActive f = false → (calculateCategoryScores daily f).temperature = 100) ∧
    (f.humidityMax = Option.none → (calculateCategoryScores daily f).humidity = 100) ∧
    (f.windSpeedMax = Option.none → (calculateCategoryScores daily f).wind = 100) ∧
    (precipFilterActive f = false →
      (calculateCategoryScores daily f).precipitation = 100) := by
  refine ⟨rfl, fun h => ?_, fun h => ?_, fun h => ?_, fun h => ?_⟩
  · simp [calculateCategoryScores, h, categoryAggregate]
  · simp [calculateCategoryScores, h, categoryAggregate]
  · simp [calculateCategoryScores, h, categoryAggregate]
  · simp [calculateCategoryScores, h, categoryAggregate]

/-- Claim C8 witness:  With no filters set at all, every category defaults to
100 and the overall score is `round(100) = 100`. -/
theorem C8_witness :
    (scoreLocation
        { id := 0, latitude := 0, longitude := 0, nearestCity := Option.none,
          state := 0, region := 0 }
        [] {} DataSource.forecast).score = 100 := by
  have h := C8_overall_score
    { id := 0, latitude := 0, longitude := 0, nearestCity := Option.none,
      state := 0, region := 0 } [] {} DataSource.forecast
  rw [h.1, h.2.1 rfl, h.2.2.1 rfl, h.2.2.2.1 rfl, h.2.2.2.2 rfl]
  norm_num [jsRound]

/-- Claim C10:  In `parseResponse`, the wind gust array value is tested for JS
truthiness before conversion: a gust of exactly 0 parses to an absent
`windGust`, while a nonzero gust parses to its km/h→mph conversion. -/
theorem C10_wind_gust_truthiness (days : List RawDay) (isHistorical : Bool) :
    ∀ d ∈ days,
      parseDay d isHistorical ∈ parseResponse days isHistorical ∧
      (d.wind_gusts_10m_max = 0 →
        (parseDay d isHistorical).windGust = Option.none) ∧
      (d.wind_gusts_10m_max ≠ 0 →
        (parseDay d isHistorical).windGust =
          Option.some (kmhToMph d.wind_gusts_10m_max : ℚ)) := by
  intro d hd
  refine ⟨List.mem_map_of_mem _ hd, fun h0 => ?_, fun h0 => ?_⟩
  · simp only [parseDay, if_pos h0]
  · simp only [parseDay, if_neg h0]

/-- Evaluate `jsRound` from the two bracketing inequalities. -/
theorem jsRound_eq {q : ℚ} {n : ℤ} (h1 : (n : ℚ) ≤ q + 1/2)
    (h2 : q + 1/2 < (n : ℚ) + 1) : jsRound q = n := by
  rw [jsRound]
  exact Int.floor_eq_iff.mpr ⟨h1, h2⟩

/-- Claim C10 witness:  A raw day with gust exactly 0 parses to an absent
gust; the same day with gust 10 km/h parses to `round(10 · 0.621371) = 6` mph. -/
theorem C10_witness :
    (parseDay rawDayGustZero false).windGust = Option.none ∧
    (parseDay rawDayGustTen false).windGust = Option.some 6 := by
  constructor
  · exact ((C10_wind_gust_truthiness [rawDayGustZero] false rawDayGustZero
      (by simp)).2.1 rfl)
  · have h := (C10_wind_gust_truthiness [rawDayGustTen] false rawDayGustTen
      (by simp)).2.2 (by rw [rawDayGustTen]; norm_num)
    rw [h]
    have h6 : kmhToMph rawDayGustTen.wind_gusts_10m_max = 6 := by
      rw [kmhToMph, rawDayGustTen]
      exact jsRound_eq (by norm_num) (by norm_num)
    rw [h6]
    norm_num

/-- The year-collecting loop of `fetchHistoricalAverages` keeps exactly the
successful fetches, in offset order. -/
theorem collectYears_eq (fetchYear : ℕ → Option (List DailyWeather)) :
    ∀ (l : List ℕ) (acc : List (List DailyWeather)),
      l.foldl
        (fun acc i =>
          match fetchYear (i + 1) with
          | Option.some data => acc ++ [data]
          | Option.none => acc)
        acc
      = acc ++ l.filterMap (fun i => fetchYear (i + 1))
  | [], acc => by simp
  | i :: l, acc => by
    simp only [List.foldl_cons, List.filterMap_cons]
    cases h : fetchYear (i + 1) <;>
      simp [h, collectYears_eq fetchYear l]

/-- Claim C6:  The averaging fallback requests `k = 5` prior years; a year
whose fetch fails is skipped; if at least one year succeeds the result is
`averageHistoricalData` over exactly the successful years in order, and if
no year succeeds the call fails with `InsufficientHistory`. -/
theorem C6_averaging_fallback (fetchYear : ℕ → Option (List DailyWeather))
    (s e : ℤ) :
    historicalYearsToAverage = 5 ∧
    ((List.range historicalYearsToAverage).filterMap (fun i => fetchYear (i + 1)) = [] →
      fetchHistoricalAverages fetchYear s e =
        Except.error FetchError.InsufficientHistory) ∧
    ((List.range historicalYearsToAverage).filterMap (fun i => fetchYear (i + 1)) ≠ [] →
      fetchHistoricalAverages fetchYear s e =
        Except.ok (averageHistoricalData
          ((List.range historicalYearsToAverage).filterMap (fun i => fetchYear (i + 1)))
          s e)) := by
  refine ⟨rfl, fun h => ?_, fun h => ?_⟩
  · rw [fetchHistoricalAverages]
    simp only [collectYears_eq fetchYear, List.nil_append, h]
    rfl
  · rw [fetchHistoricalAverages]
    simp only [collectYears_eq fetchYear, List.nil_append]
    rw [if_neg (by simpa using h)]

/-- Claim C6 witness:  With fetches succeeding only for offsets 1, 3 and 5
(3 of 5 years), the fallback still returns an estimate averaged over those
three years; with every fetch failing it returns `InsufficientHistory`. -/
theorem C6_witness :
    fetchHistoricalAverages
        (fun i => if i = 1 ∨ i = 3 ∨ i = 5 then Option.some [histDayA] else Option.none)
        0 0 =
      Except.ok (averageHistoricalData [[histDayA], [histDayA], [histDayA]] 0 0) ∧
    fetchHistoricalAverages (fun _ => Option.none) 0 0 =
      Except.error FetchError.InsufficientHistory := by
  constructor
  · have h := (C6_averaging_fallback
      (fun i => if i = 1 ∨ i = 3 ∨ i = 5 then Option.some [histDayA] else Option.none)
      0 0).2.2 (by decide)
    rw [h]
    rfl
  · exact (C6_averaging_fallback (fun _ => Option.none) 0 0).2.1 (by decide)

/-- Field characterization of `averageDay`: gust absent, sampled set
non-empty, and the derived precipitation chance formula. -/
theorem averageDay_spec (yearsData : List (List DailyWeather)) (s : ℤ) (i : ℕ)
    (rec : DailyWeather) (hrec : averageDay yearsData s i = Option.some rec) :
    rec.windGust = Option.none ∧
    yearsData.filterMap (fun yd => yd.get? i) ≠ [] ∧
    rec.precipChance = (jsRound
      ((((yearsData.filterMap (fun yd => yd.get? i)).filter
          (fun d => 0 < d.precipAmount)).length : ℚ) /
        ((yearsData.filterMap (fun yd => yd.get? i)).length : ℚ) * 100) : ℚ) := by
  rw [averageDay] at hrec
  by_cases hpts : yearsData.filterMap (fun yd => yd.get? i) = []
  · rw [if_pos hpts] at hrec
    exact absurd hrec (by simp)
  · rw [if_neg hpts] at hrec
    refine ⟨?_, hpts, ?_⟩
    · rw [← Option.some_inj.mp hrec]
    · rw [← Option.some_inj.mp hrec]

/-- The two sampled years of the concrete instance, both with nonzero
precipitation amount. -/
theorem histPair_pts :
    (([[histDayA], [histDayB]] : List (List DailyWeather)).filterMap
      (fun yd => yd.get? 0)) = [histDayA, histDayB] := rfl

/-- Derived chance of the concrete two-year instance: both years wet, so
`round(2/2 · 100) = 100`. -/
theorem histPair_chance_eval :
    (jsRound
      (((([histDayA, histDayB] : List DailyWeather).filter
          (fun d => 0 < d.precipAmount)).length : ℚ) /
        (([histDayA, histDayB] : List DailyWeather).length : ℚ) * 100) : ℚ) = 100 := by
  have hfil : ([histDayA, histDayB] : List DailyWeather).filter
      (fun d => 0 < d.precipAmount) = [histDayA, histDayB] := by
    norm_num [histDayA, histDayB, List.filter_cons]
  rw [hfil]
  have h100 : jsRound (((2 : ℕ) : ℚ) / ((2 : ℕ) : ℚ) * 100) = 100 :=
    jsRound_eq (by norm_num) (by norm_num)
  rw [show (([histDayA, histDayB] : List DailyWeather).length : ℚ) = ((2 : ℕ) : ℚ) from rfl,
    h100]
  norm_num

/-- Claim C7:  Every record produced by `averageHistoricalData` comes from
`averageDay` on a non-empty set of sampled years; for such a record the
wind gust is absent and the precipitation chance is the rounded percentage
of sampled years with nonzero precipitation amount — not the mean of the
years' chances, as the two-year instance at the end shows (derived chance
100 while the mean of the recorded chances is 50). -/
theorem C7_averaged_day (yearsData : List (List DailyWeather)) (s e : ℤ) :
    (∀ rec ∈ averageHistoricalData yearsData s e,
      ∃ i, averageDay yearsData s i = Option.some rec) ∧
    (∀ (i : ℕ) (rec : DailyWeather), averageDay yearsData s i = Option.some rec →
      rec.windGust = Option.none ∧
      yearsData.filterMap (fun yd => yd.get? i) ≠ [] ∧
      rec.precipChance = (jsRound
        ((((yearsData.filterMap (fun yd => yd.get? i)).filter
            (fun d => 0 < d.precipAmount)).length : ℚ) /
          ((yearsData.filterMap (fun yd => yd.get? i)).length : ℚ) * 100) : ℚ)) ∧
    ((averageDay [[histDayA], [histDayB]] 0 0).map (fun r => r.precipChance) =
        Option.some 100 ∧
      (histDayA.precipChance + histDayB.precipChance) / 2 = 50 ∧
      (100 : ℚ) ≠ 50) := by
  refine ⟨?_, fun i rec h => averageDay_spec yearsData s i rec h, ?_, ?_, ?_⟩
  · intro rec hrec
    rw [averageHistoricalData] at hrec
    obtain ⟨i, _, hi⟩ := List.mem_filterMap.mp hrec
    exact ⟨i, hi⟩
  · rcases hcomp : averageDay [[histDayA], [histDayB]] 0 0 with _ | rec
    · exact absurd hcomp (by decide)
    · obtain ⟨-, -, hc⟩ := averageDay_spec _ _ _ _ hcomp
      rw [Option.map_some']
      rw [hc, histPair_pts, histPair_chance_eval]
  · rw [histDayA, histDayB]
    norm_num
  · norm_num

/-- Claim C7 witness:  The characterization applied to the concrete two-year
sample: both years had nonzero precipitation amount, so the derived chance
is `round(2/2 · 100) = 100`, and the gust is absent. -/
theorem C7_witness :
    ∃ rec, averageDay [[histDayA], [histDayB]] 0 0 = Option.some rec ∧
      rec.windGust = Option.none ∧ rec.precipChance = 100 := by
  have h := (C7_averaged_day [[histDayA], [histDayB]] 0 0).2.1 0
  rcases hcomp : averageDay [[histDayA], [histDayB]] 0 0 with _ | rec
  · exact absurd hcomp (by decide)
  · obtain ⟨hg, _, hc⟩ := h rec hcomp
    refine ⟨rec, rfl, hg, ?_⟩
    rw [hc, histPair_pts, histPair_chance_eval]

/-- The in-memory overwrite loop (lines 96-103): after folding the fetched
records into the map, a date maps to the *last* fetched record carrying that
date (with the fetch data class and timestamp), and to its old value when
no fetched record carries it. -/
theorem fetchFold_eq (today now : ℤ) (fetched : List DailyWeather)
    (m : ℤ → Option CacheEntryInfo) (d : ℤ) :
    (fetched.foldl
      (fun acc day => fun x =>
        if x = day.date then Option.some ⟨day, classOf today day.date, now⟩ else acc x)
      m) d
    = match (fetched.filter (fun day => day.date = d)).getLast? with
      | Option.some rec => Option.some ⟨rec, classOf today rec.date, now⟩
      | Option.none => m d := by
  induction fetched using List.reverseRecOn with
  | nil => rfl
  | append_singleton l a ih =>
      rw [List.foldl_append, List.filter_append]
      by_cases hd : a.date = d
      · have hfa : List.filter (fun day => decide (day.date = d)) [a] = [a] := by
          simp [hd]
        rw [hfa, List.getLast?_concat]
        simp only [List.foldl_cons, List.foldl_nil]
        rw [if_pos hd.symm]
      · have hfa : List.filter (fun day => decide (day.date = d)) [a] = [] := by
          simp [hd]
        rw [hfa, List.append_nil]
        simp only [List.foldl_cons, List.foldl_nil]
        rw [if_neg (fun hdd => hd hdd.symm)]
        exact ih

/-- Claim C2, counterexample:  Dates 0..2 with only date 1 freshly cached:
the needs-fetch dates are the two runs `[0]` and `[2]`, but the code makes
a single call spanning `(0, 2)` — not one call per contiguous run — and the
freshly fetched record for date 1 replaces the fresh cache hit in the final
result. -/
theorem C2_counterexample :
    (getGridPointWeather
        [⟨1, WeatherDataType.historical, resDay 1 70, 0⟩]
        (fun _ _ => [resDay 0 50, resDay 1 50, resDay 2 50])
        0 2 10 0).calls = [(0, 2)] ∧
    ([((0 : ℤ), (2 : ℤ))] ≠ [((0 : ℤ), (0 : ℤ)), ((2 : ℤ), (2 : ℤ))]) ∧
    needsFetch (rangeCacheMap [⟨1, WeatherDataType.historical, resDay 1 70, 0⟩] 0 2) 0 1
      = false ∧
    (getGridPointWeather
        [⟨1, WeatherDataType.historical, resDay 1 70, 0⟩]
        (fun _ _ => [resDay 0 50, resDay 1 50, resDay 2 50])
        0 2 10 0).finalMap 1
      = Option.some ⟨resDay 1 50, WeatherDataType.historical, 0⟩ ∧
    resDay 1 50 ≠ resDay 1 70 := by
  refine ⟨rfl, by decide, rfl, rfl, ?_⟩
  intro hcontra
  have : (50 : ℚ) = 70 := congrArg DailyWeather.tempHigh hcontra
  norm_num at this

/-- Claim C2 as amended:  When no date needs fetching no call is made; when
some dates need fetching, exactly *one* source call is made, spanning the
first to the last needs-fetch date (covering any fresh-hit dates that lie
between runs).  In the final map, a date not carried by any fetched record
keeps its cached entry, while a date carried by fetched records — fresh-hit
or not — ends with the last fetched record for that date; the returned
records are the final map read over the range's dates. -/
theorem C2_amended_resolution (db : List CacheRow)
    (provider : ℤ → ℤ → List DailyWeather) (s e today now : ℤ) :
    (datesToFetchOf db s e now = [] →
      (getGridPointWeather db provider s e today now).calls = []) ∧
    (∀ d0 rest, datesToFetchOf db s e now = d0 :: rest →
      (getGridPointWeather db provider s e today now).calls =
        [(d0, (d0 :: rest).getLast (List.cons_ne_nil d0 rest))] ∧
      (∀ d,
        (provider d0 ((d0 :: rest).getLast (List.cons_ne_nil d0 rest))).filter
            (fun rec => rec.date = d) = [] →
        (getGridPointWeather db provider s e today now).finalMap d =
          rangeCacheMap db s e d) ∧
      (∀ d rec,
        ((provider d0 ((d0 :: rest).getLast (List.cons_ne_nil d0 rest))).filter
            (fun rec => rec.date = d)).getLast? = Option.some rec →
        (getGridPointWeather db provider s e today now).finalMap d =
          Option.some ⟨rec, classOf today rec.date, now⟩)) ∧
    ((getGridPointWeather db provider s e today now).daily =
      buildDaily (datesInRange s e)
        ((getGridPointWeather db provider s e today now).finalMap)) := by
  refine ⟨fun h => ?_, fun d0 rest h => ?_, ?_⟩
  · simp only [getGridPointWeather, h]
  · refine ⟨?_, fun d hnone => ?_, fun d rec hlast => ?_⟩
    · simp only [getGridPointWeather, h]
    · simp only [getGridPointWeather, h]
      rw [fetchFold_eq, hnone]
      rfl
    · simp only [getGridPointWeather, h]
      rw [fetchFold_eq, hlast]
  · rcases hdtf : datesToFetchOf db s e now with _ | ⟨d0, rest⟩ <;>
      simp only [getGridPointWeather, hdtf]

/-- Claim C2 witness:  The amended characterization evaluated on the concrete
three-date instance: needs-fetch dates `[0, 2]` produce the single call
`(0, 2)`, and the fresh-hit date 1, being covered by the fetched records,
ends with the fetched value. -/
theorem C2_witness :
    (getGridPointWeather
        [⟨1, WeatherDataType.historical, resDay 1 70, 0⟩]
        (fun _ _ => [resDay 0 50, resDay 1 50, resDay 2 50])
        0 2 10 5).calls = [(0, 2)] ∧
    (getGridPointWeather
        [⟨1, WeatherDataType.historical, resDay 1 70, 0⟩]
        (fun _ _ => [resDay 0 50, resDay 1 50, resDay 2 50])
        0 2 10 5).finalMap 1
      = Option.some ⟨resDay 1 50, WeatherDataType.historical, 5⟩ := by
  have h := (C2_amended_resolution
    [⟨1, WeatherDataType.historical, resDay 1 70, 0⟩]
    (fun _ _ => [resDay 0 50, resDay 1 50, resDay 2 50])
    0 2 10 5).2.1 0 [2] rfl
  refine ⟨h.1, ?_⟩
  have h2 := h.2.2 1 (resDay 1 50) rfl
  rw [h2]
  rfl

/-- `highCount` is additive over append. -/
theorem highCount_append (l1 l2 : List ScoredLocation) :
    highCount (l1 ++ l2) = highCount l1 + highCount l2 := by
  rw [highCount, highCount, highCount, List.filter_append, List.length_append]

/-- Every result the batch loop returns was in the accumulator or passed
the `minScore` gate. -/
theorem searchBatches_mem (limit : ℕ) (minScore : ℤ) :
    ∀ (batches : List (List (Option ScoredLocation))) (acc : List ScoredLocation),
      ∀ r ∈ (searchBatches batches limit minScore acc).1,
        r ∈ acc ∨ minScore ≤ r.score
  | [], acc => by
      intro r hr
      exact Or.inl hr
  | b :: restBatches, acc => by
      intro r hr
      rw [searchBatches] at hr
      have hkept : ∀ x ∈ acc ++ keptOf b minScore, x ∈ acc ∨ minScore ≤ x.score := by
        intro x hx
        rcases List.mem_append.mp hx with hx | hx
        · exact Or.inl hx
        · right
          have := List.of_mem_filter hx
          simpa using this
      by_cases hstop : limit * 2 ≤ highCount (acc ++ keptOf b minScore)
      · rw [if_pos hstop] at hr
        exact hkept r hr
      · rw [if_neg hstop] at hr
        rcases searchBatches_mem limit minScore restBatches
            (acc ++ keptOf b minScore) r hr with h | h
        · exact hkept r h
        · exact Or.inr h

/-- Early stop: once the accumulated high scorers of the first `j` batches
reach `limit * 2`, the loop never consumes more than those `j` batches. -/
theorem searchBatches_processed_le (limit : ℕ) (minScore : ℤ) :
    ∀ (batches : List (List (Option ScoredLocation))) (acc : List ScoredLocation)
      (j : ℕ), 1 ≤ j →
      limit * 2 ≤
        highCount (acc ++ ((batches.take j).map (fun b => keptOf b minScore)).flatten) →
      (searchBatches batches limit minScore acc).2 ≤
        ((batches.take j).map List.length).sum
  | [], acc, j, _, _ => by
      simp [searchBatches]
  | b :: restBatches, acc, j, hj, hcount => by
      obtain ⟨j1, rfl⟩ : ∃ j1, j = j1 + 1 := ⟨j - 1, by omega⟩
      rw [List.take_succ_cons, List.map_cons, List.flatten_cons,
        ← List.append_assoc] at hcount
      rw [List.take_succ_cons, List.map_cons, List.sum_cons]
      rw [searchBatches]
      by_cases hstop : limit * 2 ≤ highCount (acc ++ keptOf b minScore)
      · rw [if_pos hstop]
        exact Nat.le_add_right _ _
      · rw [if_neg hstop]
        dsimp only
        rcases Nat.eq_zero_or_pos j1 with hj1 | hj1
        · exfalso
          apply hstop
          subst hj1
          simpa [highCount_append] using hcount
        · have := searchBatches_processed_le limit minScore restBatches
            (acc ++ keptOf b minScore) j1 hj1 hcount
          omega

/-- A batch whose entries all resolve to scores at least 90 contributes its
whole length to the high-score count at `minScore = 0`. -/
theorem highCount_keptOf_full :
    ∀ (b : List (Option ScoredLocation)),
      (∀ o ∈ b, ∃ r, o = Option.some r ∧ (90 : ℤ) ≤ r.score) →
      highCount (keptOf b 0) = b.length
  | [] => fun _ => rfl
  | o :: rest => by
      intro h
      obtain ⟨r, rfl, hr⟩ := h o (List.mem_cons_self o rest)
      have hrest := highCount_keptOf_full rest
        (fun x hx => h x (List.mem_cons_of_mem _ hx))
      have h0 : ((0 : ℤ) ≤ r.score) := by omega
      have h70 : ((70 : ℤ) ≤ r.score) := by omega
      simp only [keptOf, highCount, List.filterMap_cons, id] at hrest ⊢
      rw [List.filter_cons, if_pos (by simpa using h0)]
      rw [List.filter_cons, if_pos (by simpa using h70)]
      simp only [List.length_cons]
      omega

/-- Claim C4:  For every search: the returned list has length at most `limit`,
is sorted by score descending, and contains only results scoring at least
`minScore`; the loop stops before later batches once the running count of
results scoring ≥ 70 over the first `j` batches reaches `limit * 2`; and in
particular with `limit = 10`, `minScore = 0` over 50 locations whose first
20 all score ≥ 90, at most 30 (in fact 20) locations are processed. -/
theorem C4_search_properties (outcomes : List (Option ScoredLocation))
    (limit : ℕ) (minScore : ℤ) :
    (searchHandler outcomes limit minScore).1.length ≤ limit ∧
    List.Sorted scoreGE (searchHandler outcomes limit minScore).1 ∧
    (∀ r ∈ (searchHandler outcomes limit minScore).1, minScore ≤ r.score) ∧
    (∀ j : ℕ, 1 ≤ j →
      limit * 2 ≤ highCount
        ((((toBatches outcomes).take j).map (fun b => keptOf b minScore)).flatten) →
      (searchHandler outcomes limit minScore).2 ≤
        (((toBatches outcomes).take j).map List.length).sum) ∧
    (limit = 10 → minScore = 0 → outcomes.length = 50 →
      (∀ o ∈ outcomes.take 20, ∃ r, o = Option.some r ∧ (90 : ℤ) ≤ r.score) →
      (searchHandler outcomes limit minScore).2 ≤ 30) := by
  refine ⟨?_, ?_, ?_, ?_, ?_⟩
  · calc (searchHandler outcomes limit minScore).1.length
        = min limit (List.insertionSort scoreGE
            (searchBatches (toBatches outcomes) limit minScore []).1).length := by
          rw [searchHandler, List.length_take]
      _ ≤ limit := min_le_left _ _
  · exact List.Pairwise.sublist (List.take_sublist _ _)
      (List.sorted_insertionSort scoreGE _)
  · intro r hr
    have h1 : r ∈ List.insertionSort scoreGE
        (searchBatches (toBatches outcomes) limit minScore []).1 :=
      (List.take_sublist _ _).subset hr
    have h2 : r ∈ (searchBatches (toBatches outcomes) limit minScore []).1 :=
      (List.mem_insertionSort scoreGE).mp h1
    rcases searchBatches_mem limit minScore (toBatches outcomes) [] r h2 with h | h
    · exact absurd h (List.not_mem_nil r)
    · exact h
  · intro j hj hcount
    exact searchBatches_processed_le limit minScore (toBatches outcomes) [] j hj
      (by simpa using hcount)
  · rintro rfl rfl hlen hfirst
    -- unfold the first two batches of a 50-element list
    have hne1 : outcomes ≠ [] := by
      intro h
      rw [h] at hlen
      exact absurd hlen (by decide)
    have hne2 : outcomes.drop 10 ≠ [] := by
      intro h
      have := congrArg List.length h
      rw [List.length_drop, hlen] at this
      exact absurd this (by decide)
    have hbatches : (toBatches outcomes).take 2 =
        [outcomes.take 10, (outcomes.drop 10).take 10] := by
      rw [toBatches, if_neg hne1, toBatches, if_neg hne2]
      rfl
    have hsub1 : outcomes.take 10 ⊆ outcomes.take 20 := by
      intro x hx
      rw [show outcomes.take 10 = (outcomes.take 20).take 10 by
        rw [List.take_take]
        norm_num] at hx
      exact (List.take_subset _ _) hx
    have hsub2 : (outcomes.drop 10).take 10 ⊆ outcomes.take 20 := by
      intro x hx
      rw [show (outcomes.drop 10).take 10 = (outcomes.take 20).drop 10 by
        rw [List.drop_take]] at hx
      exact (List.drop_subset _ _) hx
    have hlen1 : (outcomes.take 10).length = 10 := by
      rw [List.length_take, hlen]
      exact min_eq_left (by norm_num)
    have hlen2 : ((outcomes.drop 10).take 10).length = 10 := by
      rw [List.length_take, List.length_drop, hlen]
      exact min_eq_left (by norm_num)
    have hcount : (10 : ℕ) * 2 ≤ highCount
        ((((toBatches outcomes).take 2).map (fun b => keptOf b 0)).flatten) := by
      rw [hbatches]
      simp only [List.map_cons, List.map_nil, List.flatten_cons, List.flatten_nil]
      rw [List.append_nil, highCount_append]
      rw [highCount_keptOf_full _ (fun o ho => hfirst o (hsub1 ho)),
        highCount_keptOf_full _ (fun o ho => hfirst o (hsub2 ho)), hlen1, hlen2]
    have hle := searchBatches_processed_le 10 0 (toBatches outcomes) [] 2
      (by omega) (by simpa using hcount)
    rw [searchHandler]
    calc (searchBatches (toBatches outcomes) 10 0 []).2
        ≤ (((toBatches outcomes).take 2).map List.length).sum := hle
      _ = 20 := by
          rw [hbatches]
          simp only [List.map_cons, List.map_nil, List.sum_cons, List.sum_nil]
          omega
      _ ≤ 30 := by omega

/-- Claim C4 witness:  Fifty locations, all scoring 90: the early-stop case of
the theorem applies and at most 30 locations are processed. -/
theorem C4_witness :
    (searchHandler (List.replicate 50 (Option.some highLoc)) 10 0).2 ≤ 30 := by
  refine (C4_search_properties (List.replicate 50 (Option.some highLoc)) 10 0).2.2.2.2
    rfl rfl (by simp) ?_
  intro o ho
  have hmem : o ∈ List.replicate 50 (Option.some highLoc) :=
    (List.take_subset _ _) ho
  have := List.eq_of_mem_replicate hmem
  exact ⟨highLoc, this, by rw [highLoc]⟩

/-- A single non-null outcome that meets `minScore = 0` is consumed and
returned by the handler. -/
theorem searchHandler_single (loc : ScoredLocation) (h0 : (0 : ℤ) ≤ loc.score) :
    searchHandler [Option.some loc] 50 0 = ([loc], 1) := by
  have hb : toBatches [Option.some loc] = [[Option.some loc]] := by
    rw [toBatches, if_neg (by simp), toBatches,
      if_pos (show List.drop 10 [Option.some loc] = [] from rfl)]
    rfl
  have hkept : keptOf [Option.some loc] 0 = [loc] := by
    rw [keptOf]
    simp [h0]
  rw [searchHandler, hb, searchBatches, hkept]
  have hhc : highCount ([] ++ [loc]) ≤ 1 := by
    rw [List.nil_append, highCount]
    exact List.length_filter_le _ _
  rw [if_neg (by omega)]
  dsimp only
  rw [searchBatches]
  simp [List.insertionSort, List.orderedInsert]

/-- Claim C3 fails on the code:  A location all of whose source
fetches failed resolves to an *empty* record list (the provider swallows
every fetch error), `scoreLocation` then scores the empty list as a perfect
100 (every category aggregate defaults to 100), and the search handler
*includes* that location in the results at score 100 instead of excluding
it. -/
theorem C3_empty_location_scored :
    (getGridPointWeather [] (fun _ _ => []) 0 2 10 0).daily = [] ∧
    (scoreLocation gp0 [] filters90 DataSource.forecast).score = 100 ∧
    searchHandler [Option.some (scoreLocation gp0 [] filters90 DataSource.forecast)]
        50 0
      = ([scoreLocation gp0 [] filters90 DataSource.forecast], 1) := by
  have hbd : calculateCategoryScores [] filters90 =
      ⟨100, 100, 100, 100, Option.none⟩ := rfl
  have hscore : (scoreLocation gp0 [] filters90 DataSource.forecast).score = 100 := by
    show jsRound (calculateOverallScore (calculateCategoryScores [] filters90)) = 100
    rw [hbd]
    have hov : calculateOverallScore ⟨100, 100, 100, 100, Option.none⟩ = 100 := by
      rw [calculateOverallScore]
      norm_num [CATEGORY_WEIGHTS]
    rw [hov]
    exact jsRound_eq (by norm_num) (by norm_num)
  exact ⟨rfl, hscore,
    searchHandler_single _ (by rw [hscore]; norm_num)⟩

/-- `buildCacheMap` maps a date to the *last* row of that date, if any. -/
theorem buildCacheMap_eq (rows : List CacheRow) (d : ℤ) :
    buildCacheMap rows d
    = match (rows.filter (fun r => r.date = d)).getLast? with
      | Option.some row => Option.some ⟨row.data, row.dataType, row.fetchedAt⟩
      | Option.none => Option.none := by
  induction rows using List.reverseRecOn with
  | nil => rfl
  | append_singleton l a ih =>
      rw [buildCacheMap, List.foldl_append, List.filter_append]
      by_cases hd : a.date = d
      · have hfa : List.filter (fun r => decide (r.date = d)) [a] = [a] := by
          simp [hd]
        rw [hfa, List.getLast?_concat]
        simp only [List.foldl_cons, List.foldl_nil]
        rw [if_pos hd.symm]
      · have hfa : List.filter (fun r => decide (r.date = d)) [a] = [] := by
          simp [hd]
        rw [hfa, List.append_nil]
        simp only [List.foldl_cons, List.foldl_nil]
        rw [if_neg (fun hdd => hd hdd.symm)]
        exact ih

/-- For a date inside the range, the range filter is transparent:
`rangeCacheMap` sees exactly the rows carrying that date. -/
theorem rangeCacheMap_eq (db : List CacheRow) {s e d : ℤ}
    (hsd : s ≤ d) (hde : d ≤ e) :
    rangeCacheMap db s e d
    = match (db.filter (fun r => r.date = d)).getLast? with
      | Option.some row => Option.some ⟨row.data, row.dataType, row.fetchedAt⟩
      | Option.none => Option.none := by
  have hff : (db.filter (fun r => s ≤ r.date ∧ r.date ≤ e)).filter
      (fun r => r.date = d) = db.filter (fun r => r.date = d) := by
    rw [List.filter_filter]
    apply List.filter_congr
    intro r _
    by_cases h : r.date = d
    · simp [h, hsd, hde]
    · simp [h]
  rw [rangeCacheMap, buildCacheMap_eq, hff]

/-- Membership in the enumerated date range. -/
theorem mem_datesInRange {s e d : ℤ} : d ∈ datesInRange s e ↔ s ≤ d ∧ d ≤ e := by
  rw [datesInRange]
  by_cases h : e < s
  · rw [if_pos h]
    constructor
    · intro hd
      exact absurd hd (List.not_mem_nil d)
    · intro hd
      omega
  · rw [if_neg h]
    constructor
    · intro hd
      obtain ⟨i, hi, hieq⟩ := List.mem_map.mp hd
      rw [List.mem_range] at hi
      omega
    · rintro ⟨h1, h2⟩
      refine List.mem_map.mpr ⟨(d - s).toNat, ?_, by omega⟩
      rw [List.mem_range]
      omega

/-- A cache entry written at time `now` is never expired at time `now`. -/
theorem isCacheExpired_now (now : ℤ) (dt : WeatherDataType) :
    isCacheExpired now now dt = false := by
  cases dt <;>
    norm_num [isCacheExpired, FORECAST_CACHE_HOURS, HISTORICAL_CACHE_DAYS]

/-- The final in-memory map of a resolution: the last fetched record of a
date wins; dates no fetched record carries keep the starting cache map. -/
theorem finalMap_eq (db : List CacheRow) (provider : ℤ → ℤ → List DailyWeather)
    (s e today now d : ℤ) :
    (getGridPointWeather db provider s e today now).finalMap d
    = match ((fetchedOf db provider s e now).filter
        (fun rec => rec.date = d)).getLast? with
      | Option.some rec => Option.some ⟨rec, classOf today rec.date, now⟩
      | Option.none => rangeCacheMap db s e d := by
  rcases hdtf : datesToFetchOf db s e now with _ | ⟨d0, rest⟩
  · simp only [getGridPointWeather, fetchedOf, hdtf]
    rfl
  · simp only [getGridPointWeather, fetchedOf, hdtf]
    rw [fetchFold_eq]

/-- The returned records are the final map read over the range's dates. -/
theorem daily_eq (db : List CacheRow) (provider : ℤ → ℤ → List DailyWeather)
    (s e today now : ℤ) :
    (getGridPointWeather db provider s e today now).daily
    = buildDaily (datesInRange s e)
        ((getGridPointWeather db provider s e today now).finalMap) := by
  rcases hdtf : datesToFetchOf db s e now with _ | ⟨d0, rest⟩ <;>
    simp only [getGridPointWeather, hdtf]

/-- The table after a resolution is the batch upsert of the fetched records. -/
theorem cacheAfter_eq (db : List CacheRow) (provider : ℤ → ℤ → List DailyWeather)
    (s e today now : ℤ) :
    (getGridPointWeather db provider s e today now).cacheAfter
    = cacheWeatherData db (fetchedOf db provider s e now) today now := by
  rcases hdtf : datesToFetchOf db s e now with _ | ⟨d0, rest⟩ <;>
    (simp only [getGridPointWeather, fetchedOf, hdtf]; try rfl)

/-- When no date needs fetching, no call is made and the final map is the
starting cache map. -/
theorem resolve_of_no_fetch (db : List CacheRow)
    (provider : ℤ → ℤ → List DailyWeather) (s e today now : ℤ)
    (h : datesToFetchOf db s e now = []) :
    (getGridPointWeather db provider s e today now).calls = [] ∧
    (getGridPointWeather db provider s e today now).daily
      = buildDaily (datesInRange s e) (rangeCacheMap db s e) := by
  refine ⟨?_, ?_⟩ <;> simp only [getGridPointWeather, h]

/-- Pointwise-equal maps build the same daily list. -/
theorem buildDaily_congr (dates : List ℤ) (m1 m2 : ℤ → Option CacheEntryInfo)
    (h : ∀ d ∈ dates, m1 d = m2 d) : buildDaily dates m1 = buildDaily dates m2 := by
  rw [buildDaily, buildDaily]
  exact List.filterMap_congr (fun d hd => by rw [h d hd])

/-- With pairwise-distinct dates, filtering on a present date yields exactly
its one row. -/
theorem filter_singleton_of_pairwise {d : ℤ} :
    ∀ {rows : List CacheRow}, rows.Pairwise (fun a b => a.date ≠ b.date) →
      ∀ {r0 : CacheRow}, r0 ∈ rows → r0.date = d →
      rows.filter (fun r => r.date = d) = [r0]
  | [], _, _, hmem, _ => absurd hmem (List.not_mem_nil _)
  | a :: l, hpair, r0, hmem, hr0 => by
      have hpc := List.pairwise_cons.mp hpair
      rcases List.mem_cons.mp hmem with rfl | hmem2
      · rw [List.filter_cons, if_pos (by simpa using hr0)]
        have hnil : l.filter (fun r => r.date = d) = [] := by
          rw [List.filter_eq_nil_iff]
          intro b hb
          simp only [decide_eq_true_eq]
          intro hbd
          exact hpc.1 b hb (by rw [hr0, hbd])
        rw [hnil]
      · have hane : a.date ≠ d := by
          have := hpc.1 r0 hmem2
          rw [hr0] at this
          exact this
        rw [List.filter_cons, if_neg (by simpa using hane)]
        exact filter_singleton_of_pairwise hpc.2 hmem2 hr0

/-- If the upsert takes its append branch (no key matched) on a
class-consistent table, no row carries the upserted date at all. -/
theorem no_row_of_not_any {today : ℤ} {rows : List CacheRow}
    (hclass : ∀ r ∈ rows, r.dataType = classOf today r.date) (day : DailyWeather)
    (hany : ¬ rows.any
      (fun r => r.date = day.date ∧ r.dataType = classOf today day.date) = true) :
    ∀ r ∈ rows, r.date ≠ day.date := by
  intro r hr hrd
  apply hany
  refine List.any_eq_true.mpr ⟨r, hr, ?_⟩
  simp only [decide_eq_true_eq]
  exact ⟨hrd, by rw [hclass r hr, hrd]⟩

/-- One upsert with the service's data class preserves well-formedness. -/
theorem upsertRow_WF {today now : ℤ} {rows : List CacheRow}
    (hWF : WFCache today rows) (day : DailyWeather) :
    WFCache today (upsertRow rows day.date (classOf today day.date) day now) := by
  rw [upsertRow]
  by_cases hany : rows.any
      (fun r => r.date = day.date ∧ r.dataType = classOf today day.date) = true
  · rw [if_pos hany]
    have hFdate : ∀ r : CacheRow,
        ((fun r : CacheRow =>
          if r.date = day.date ∧ r.dataType = classOf today day.date then
            { r with data := day, fetchedAt := now }
          else r) r).date = r.date := by
      intro r
      dsimp only
      split
      · rfl
      · rfl
    constructor
    · refine List.Pairwise.map _ (fun a b hab => ?_) hWF.1
      rw [hFdate, hFdate]
      exact hab
    · intro x hx
      obtain ⟨r, hr, rfl⟩ := List.mem_map.mp hx
      split
      · exact hWF.2 r hr
      · exact hWF.2 r hr
  · rw [if_neg hany]
    have hnodate := no_row_of_not_any hWF.2 day hany
    constructor
    · rw [List.pairwise_append]
      refine ⟨hWF.1, List.pairwise_singleton _ _, ?_⟩
      intro a ha b hb
      rw [List.mem_singleton.mp hb]
      exact hnodate a ha
    · intro x hx
      rcases List.mem_append.mp hx with hx | hx
      · exact hWF.2 x hx
      · rw [List.mem_singleton.mp hx]

/-- The batch upsert preserves well-formedness. -/
theorem cacheWeatherData_WF {today now : ℤ} :
    ∀ (fetched : List DailyWeather) {rows : List CacheRow}, WFCache today rows →
      WFCache today (cacheWeatherData rows fetched today now)
  | [], _, hWF => hWF
  | day :: rest, _, hWF =>
      cacheWeatherData_WF rest (upsertRow_WF hWF day)

/-- One upsert as seen on a fixed date `d`: it rewrites `d`'s row when it is
the upserted date, and is invisible to every other date. -/
theorem upsertRow_filter_date {today now d : ℤ} {rows : List CacheRow}
    (hWF : WFCache today rows) (day : DailyWeather) :
    (upsertRow rows day.date (classOf today day.date) day now).filter
        (fun r => r.date = d)
    = if day.date = d then
        [(⟨day.date, classOf today day.date, day, now⟩ : CacheRow)]
      else rows.filter (fun r => r.date = d) := by
  rw [upsertRow]
  by_cases hany : rows.any
      (fun r => r.date = day.date ∧ r.dataType = classOf today day.date) = true
  · rw [if_pos hany]
    obtain ⟨r0, hr0mem, hr0p⟩ := List.any_eq_true.mp hany
    have hr0 : r0.date = day.date ∧ r0.dataType = classOf today day.date := by
      simpa using hr0p
    rw [List.filter_map]
    have hpred : ∀ r ∈ rows,
        ((fun r : CacheRow => decide (r.date = d)) ∘
          (fun r : CacheRow =>
            if r.date = day.date ∧ r.dataType = classOf today day.date then
              { r with data := day, fetchedAt := now }
            else r)) r
        = decide (r.date = d) := by
      intro r _
      simp only [Function.comp]
      split
      · rfl
      · rfl
    rw [List.filter_congr hpred]
    by_cases had : day.date = d
    · rw [if_pos had]
      have hsingle := filter_singleton_of_pairwise hWF.1 hr0mem (hr0.1.trans had)
      rw [hsingle, List.map_cons, List.map_nil, if_pos hr0]
      have hrec : ({ r0 with data := day, fetchedAt := now } : CacheRow)
          = ⟨day.date, classOf today day.date, day, now⟩ := by
        obtain ⟨h1, h2⟩ := hr0
        obtain ⟨rd, rdt, rdata, rfa⟩ := r0
        rw [show rd = day.date from h1, show rdt = classOf today day.date from h2]
      rw [hrec]
    · rw [if_neg had]
      have hid : ∀ r ∈ rows.filter (fun r => r.date = d),
          (if r.date = day.date ∧ r.dataType = classOf today day.date then
            ({ r with data := day, fetchedAt := now } : CacheRow)
          else r) = r := by
        intro r hr
        have hrd : r.date = d := by simpa using List.of_mem_filter hr
        exact if_neg (fun hc => had (by rw [← hc.1, hrd]))
      calc (rows.filter (fun r => r.date = d)).map _
          = (rows.filter (fun r => r.date = d)).map id := List.map_congr_left hid
        _ = rows.filter (fun r => r.date = d) := List.map_id _
  · rw [if_neg hany]
    have hnodate := no_row_of_not_any hWF.2 day hany
    rw [List.filter_append]
    by_cases had : day.date = d
    · rw [if_pos had]
      have h1 : rows.filter (fun r => r.date = d) = [] := by
        rw [List.filter_eq_nil_iff]
        intro r hr
        simp only [decide_eq_true_eq]
        intro hrd
        exact hnodate r hr (by rw [hrd, had])
      have h2 : List.filter (fun r => decide (r.date = d))
          [(⟨day.date, classOf today day.date, day, now⟩ : CacheRow)]
          = [(⟨day.date, classOf today day.date, day, now⟩ : CacheRow)] := by
        simp [had]
      rw [h1, h2, List.nil_append]
    · rw [if_neg had]
      have h2 : List.filter (fun r => decide (r.date = d))
          [(⟨day.date, classOf today day.date, day, now⟩ : CacheRow)] = [] := by
        simp [had]
      rw [h2, List.append_nil]

/-- The batch upsert as seen on a fixed date `d`: the last fetched record of
date `d` wins; with none, `d`'s rows are untouched. -/
theorem cacheWeatherData_filter_date {today now d : ℤ}
    (fetched : List DailyWeather) :
    ∀ {rows : List CacheRow}, WFCache today rows →
      (cacheWeatherData rows fetched today now).filter (fun r => r.date = d)
      = match (fetched.filter (fun rec => rec.date = d)).getLast? with
        | Option.some rec =>
            [(⟨rec.date, classOf today rec.date, rec, now⟩ : CacheRow)]
        | Option.none => rows.filter (fun r => r.date = d) := by
  induction fetched using List.reverseRecOn with
  | nil =>
      intro rows hWF
      rfl
  | append_singleton l a ih =>
      intro rows hWF
      have hWFl : WFCache today (cacheWeatherData rows l today now) :=
        cacheWeatherData_WF l hWF
      have hstep : cacheWeatherData rows (l ++ [a]) today now
          = upsertRow (cacheWeatherData rows l today now) a.date
              (classOf today a.date) a now := by
        rw [cacheWeatherData, cacheWeatherData, List.foldl_append]
        rfl
      rw [hstep, upsertRow_filter_date hWFl a, List.filter_append]
      by_cases had : a.date = d
      · have hfa : List.filter (fun rec => decide (rec.date = d)) [a] = [a] := by
          simp [had]
        rw [hfa, List.getLast?_concat, if_pos had]
      · have hfa : List.filter (fun rec => decide (rec.date = d)) [a] = [] := by
          simp [had]
        rw [hfa, List.append_nil, if_neg had]
        exact ih hWF

/-- Claim C5:  With a well-formed cache (one class-consistent row per date)
and a provider covering every needs-fetch date, resolving the same range
twice in immediate succession (same `today`, same `now`) serves the second
call entirely from cache: it makes no source call and returns exactly the
first call's daily records. -/
theorem C5_resolve_idempotent (db : List CacheRow)
    (provider : ℤ → ℤ → List DailyWeather) (s e today now : ℤ)
    (hpair : db.Pairwise (fun a b => a.date ≠ b.date))
    (hclass : ∀ r ∈ db, r.dataType = classOf today r.date)
    (hcover : ∀ d ∈ datesToFetchOf db s e now,
      ∃ rec ∈ fetchedOf db provider s e now, rec.date = d) :
    (getGridPointWeather (getGridPointWeather db provider s e today now).cacheAfter
        provider s e today now).calls = [] ∧
    (getGridPointWeather (getGridPointWeather db provider s e today now).cacheAfter
        provider s e today now).daily
      = (getGridPointWeather db provider s e today now).daily := by
  have hWF : WFCache today db := ⟨hpair, hclass⟩
  have hdb2eq : (getGridPointWeather db provider s e today now).cacheAfter
      = cacheWeatherData db (fetchedOf db provider s e now) today now :=
    cacheAfter_eq db provider s e today now
  have hmap : ∀ d, s ≤ d → d ≤ e →
      rangeCacheMap (getGridPointWeather db provider s e today now).cacheAfter s e d
        = (getGridPointWeather db provider s e today now).finalMap d := by
    intro d hsd hde
    rw [hdb2eq, rangeCacheMap_eq _ hsd hde,
      cacheWeatherData_filter_date _ hWF, finalMap_eq]
    cases hfd : ((fetchedOf db provider s e now).filter
        (fun rec => rec.date = d)).getLast? with
    | none => rw [rangeCacheMap_eq db hsd hde]
    | some rec => rfl
  have hfresh : ∀ d ∈ datesInRange s e,
      needsFetch
        (rangeCacheMap (getGridPointWeather db provider s e today now).cacheAfter s e)
        now d = false := by
    intro d hd
    obtain ⟨hsd, hde⟩ := mem_datesInRange.mp hd
    rw [needsFetch, hmap d hsd hde, finalMap_eq]
    cases hfd : ((fetchedOf db provider s e now).filter
        (fun rec => rec.date = d)).getLast? with
    | some rec => exact isCacheExpired_now now _
    | none =>
        by_cases hnf : needsFetch (rangeCacheMap db s e) now d = true
        · exfalso
          have hdin : d ∈ datesToFetchOf db s e now := by
            rw [datesToFetchOf, List.mem_filter]
            exact ⟨hd, hnf⟩
          obtain ⟨rec, hrecmem, hrecd⟩ := hcover d hdin
          have hrecin : rec ∈ (fetchedOf db provider s e now).filter
              (fun rec => rec.date = d) :=
            List.mem_filter.mpr ⟨hrecmem, by simp [hrecd]⟩
          rw [List.getLast?_eq_none_iff] at hfd
          rw [hfd] at hrecin
          exact absurd hrecin (List.not_mem_nil rec)
        · have hnf2 : needsFetch (rangeCacheMap db s e) now d = false := by
            cases hv : needsFetch (rangeCacheMap db s e) now d
            · rfl
            · exact absurd hv hnf
          rw [needsFetch] at hnf2
          exact hnf2
  have hdtf2 : datesToFetchOf
      (getGridPointWeather db provider s e today now).cacheAfter s e now = [] := by
    rw [datesToFetchOf, List.filter_eq_nil_iff]
    intro d hd
    rw [hfresh d hd]
    simp
  obtain ⟨hcalls, hdaily2⟩ := resolve_of_no_fetch _ provider s e today now hdtf2
  refine ⟨hcalls, ?_⟩
  rw [hdaily2, daily_eq db provider s e today now]
  exact buildDaily_congr _ _ _ (fun d hd => by
    obtain ⟨hsd, hde⟩ := mem_datesInRange.mp hd
    exact hmap d hsd hde)

/-- Claim C5 witness:  The idempotence theorem applied to the concrete
three-date instance of the resolution development: the hypotheses hold (one
historical row, class-consistent, provider returns a record for every
date), so the second resolution makes no call and returns the same records. -/
theorem C5_witness :
    (getGridPointWeather
        (getGridPointWeather
          [⟨1, WeatherDataType.historical, resDay 1 70, 0⟩]
          (fun _ _ => [resDay 0 50, resDay 1 50, resDay 2 50]) 0 2 10 5).cacheAfter
        (fun _ _ => [resDay 0 50, resDay 1 50, resDay 2 50]) 0 2 10 5).calls = [] ∧
    (getGridPointWeather
        (getGridPointWeather
          [⟨1, WeatherDataType.historical, resDay 1 70, 0⟩]
          (fun _ _ => [resDay 0 50, resDay 1 50, resDay 2 50]) 0 2 10 5).cacheAfter
        (fun _ _ => [resDay 0 50, resDay 1 50, resDay 2 50]) 0 2 10 5).daily
      = (getGridPointWeather
          [⟨1, WeatherDataType.historical, resDay 1 70, 0⟩]
          (fun _ _ => [resDay 0 50, resDay 1 50, resDay 2 50]) 0 2 10 5).daily := by
  refine C5_resolve_idempotent
    [⟨1, WeatherDataType.historical, resDay 1 70, 0⟩]
    (fun _ _ => [resDay 0 50, resDay 1 50, resDay 2 50]) 0 2 10 5
    ?_ ?_ ?_
  · exact List.pairwise_singleton _ _
  · intro r hr
    rw [List.mem_singleton.mp hr]
    rfl
  · intro d hd
    have hd3 : d = 0 ∨ d = 1 ∨ d = 2 := by
      have hmem := List.mem_filter.mp hd
      have := mem_datesInRange.mp hmem.1
      omega
    rcases hd3 with rfl | rfl | rfl
    · exact ⟨resDay 0 50,
        (List.mem_cons_self _ _ :
          resDay 0 50 ∈ [resDay 0 50, resDay 1 50, resDay 2 50]), rfl⟩
    · exact ⟨resDay 1 50,
        (List.mem_cons_of_mem _ (List.mem_cons_self _ _) :
          resDay 1 50 ∈ [resDay 0 50, resDay 1 50, resDay 2 50]), rfl⟩
    · exact ⟨resDay 2 50,
        (List.mem_cons_of_mem _ (List.mem_cons_of_mem _ (List.mem_cons_self _ _)) :
          resDay 2 50 ∈ [resDay 0 50, resDay 1 50, resDay 2 50]), rfl⟩

end VanLife
